import Mathlib

/-!
Shallow embedding of the smart-class-companion classroom application
(src/core/models.py, src/core/views.py, src/core/validators.py,
src/core/decorators.py) and proofs about its business rules:
submission timing classification, grading, class-code generation,
enrollment and submission uniqueness, ownership checks, file
validation, and the archive-only class delete.
-/

namespace SmartClass

/-- Role choices of the custom user model (models.py, `User.ROLE_CHOICES`). -/
inductive Role where
  | TEACHER
  | STUDENT
deriving DecidableEq, Repr

/-- A user row: identity plus role (models.py, `User`). -/
structure User where
  id : Nat
  role : Role
deriving DecidableEq, Repr

/-- A class row (models.py, `Class`): owning teacher, generated join
code, and an active flag used by the archive-style delete. -/
structure ClassRec where
  id : Nat
  name : String
  description : String
  teacherId : Nat
  classCode : String
  subject : String
  room : String
  isActive : Bool
deriving DecidableEq, Repr

/-- An enrollment row (models.py, `Enrollment`): student/class join
table with an active flag; unique on (student, class). -/
structure Enrollment where
  studentId : Nat
  classId : Nat
  isActive : Bool
deriving DecidableEq, Repr

/-- A lesson row (models.py, `Lesson`). -/
structure Lesson where
  id : Nat
  classId : Nat
  title : String
  description : String
  order : Int
  isPublished : Bool
deriving DecidableEq, Repr

/-- An assignment row (models.py, `Assignment`): due date (as an
integer timestamp), point scale, and the late-submission flag. -/
structure Assignment where
  id : Nat
  classId : Nat
  title : String
  description : String
  dueDate : Int
  maxPoints : Int
  allowLateSubmission : Bool
  isPublished : Bool
deriving DecidableEq, Repr

/-- Status choices of a submission (models.py, `Submission.STATUS_CHOICES`). -/
inductive SubmissionStatus where
  | ON_TIME
  | LATE
  | GRADED
deriving DecidableEq, Repr

/-- A submission row (models.py, `Submission`). `pk = none` models an
unsaved instance; `status = none` models the blank CharField before the
classifier in `save` runs. The model declares exactly these persisted
fields: in particular there is no graded-timestamp column. -/
structure Submission where
  pk : Option Nat
  assignmentId : Nat
  studentId : Nat
  fileName : String
  submittedAt : Option Int
  status : Option SubmissionStatus
  points : Option Int
  feedback : String
deriving DecidableEq, Repr

/-- An announcement row (models.py, `Announcement`). -/
structure Announcement where
  id : Nat
  classId : Nat
  teacherId : Nat
  title : String
  content : String
  isPinned : Bool
deriving DecidableEq, Repr

/-- The relational state the views mutate: one list per table. -/
structure DB where
  classes : List ClassRec
  enrollments : List Enrollment
  lessons : List Lesson
  assignments : List Assignment
  announcements : List Announcement
  submissions : List Submission
deriving DecidableEq, Repr

/-- Embedding of `Submission.save` (models.py lines 252-263): on a new instance with
no timestamp, stamp it with the current time; then, when no status was
supplied, classify against the assignment's due date (at or before the
due date gives ON_TIME, after gives LATE). Comparing a missing
timestamp would be a Python `TypeError`, modelled as `none`. -/
def Submission.save (now dueDate : Int) (s : Submission) : Option Submission :=
  let s1 := if s.pk = none ∧ s.submittedAt = none then
    { s with submittedAt := some now } else s
  match s1.status with
  | some _ => some s1
  | none =>
    match s1.submittedAt with
    | none => none
    | some t =>
      if t ≤ dueDate then some { s1 with status := some .ON_TIME }
      else some { s1 with status := some .LATE }

/-- Index of the last occurrence of a character in a list, mirroring
Python's `str.rfind` (with `none` in place of -1). -/
def lastIdxOf (c : Char) : List Char → Option Nat
  | [] => none
  | x :: xs =>
    match lastIdxOf c xs with
    | some i => some (i + 1)
    | none => if x = c then some 0 else none

/-- The extension component of `os.path.splitext` (posixpath): the
suffix from the last dot, provided that dot lies after the last path
separator and some character strictly between the separator and that
dot is not itself a dot (leading dots of the basename are not an
extension). -/
def splitextExt (p : List Char) : List Char :=
  match lastIdxOf '.' p with
  | none => []
  | some d =>
    let sepIdx := lastIdxOf '/' p
    let afterSep := match sepIdx with
      | none => true
      | some s => decide (s < d)
    if afterSep then
      let start := match sepIdx with
        | none => 0
        | some s => s + 1
      if ((p.take d).drop start).any (fun ch => ch != '.') then p.drop d
      else []
    else []

/-- Python's `str.lower` restricted to the ASCII range used here. -/
def lowerChars (l : List Char) : List Char := l.map Char.toLower

/-- Python's `str.upper` restricted to the ASCII range used here. -/
def upperStr (s : String) : String := String.mk (s.toList.map Char.toUpper)

/-- The allow-list of upload extensions (validators.py line 6). -/
def valid_extensions : List String :=
  [".pdf", ".doc", ".docx", ".ppt", ".pptx", ".txt", ".zip", ".jpg", ".jpeg", ".png"]

/-- The lower-cased extension of an uploaded file name, exactly as
`validate_file_extension` computes it. -/
def fileExt (name : String) : String :=
  String.mk (lowerChars (splitextExt name.toList))

/-- Embedding of `validate_file_extension` (validators.py lines 4-8): raise unless
the lower-cased extension is in the allow-list. -/
def validate_file_extension (name : String) : Except String Unit :=
  if valid_extensions.contains (fileExt name) then Except.ok ()
  else Except.error "Unsupported file extension. Allowed: PDF, Word, PowerPoint, Text, ZIP, Images."

/-- The 10 MiB upload ceiling (validators.py line 11). -/
def FILE_SIZE_LIMIT : Nat := 10 * 1024 * 1024

/-- Embedding of `validate_file_size` (validators.py lines 10-13): raise when the
size strictly exceeds the ceiling. -/
def validate_file_size (size : Nat) : Except String Unit :=
  if size > FILE_SIZE_LIMIT then Except.error "File too large. Size should not exceed 10 MiB."
  else Except.ok ()

/-- The validator chain `SubmissionForm` attaches to its file field
(forms.py line 124): extension first, then size. -/
def validate_file (name : String) (size : Nat) : Except String Unit :=
  match validate_file_extension name with
  | Except.error e => Except.error e
  | Except.ok _ => validate_file_size size

/-- The uppercase-alphanumeric alphabet class codes are drawn from
(models.py line 77: `string.ascii_uppercase + string.digits`). -/
def codeAlphabet : List Char := "ABCDEFGHIJKLMNOPQRSTUVWXYZ0123456789".toList

/-- One random pick from the alphabet, indexed by the RNG output. -/
def codeChar (i : Fin 36) : Char := codeAlphabet.getD i.val 'A'

/-- One candidate code: six picks from the alphabet
(`random.choices(..., k=6)` joined into a string), attempt number
`attempt` of the retry loop, drawing from the RNG stream `rng`. -/
def candidateCode (rng : Nat → Fin 36) (attempt : Nat) : String :=
  String.mk ((List.range 6).map (fun j => codeChar (rng (6 * attempt + j))))

/-- The retry loop of `Class.generate_class_code` (models.py lines
73-79): draw a candidate, return it unless some existing class (active
or not: the filter has no `is_active` clause) already carries it,
otherwise retry. The source loop is unbounded; `fuel` bounds our model
of it, with `none` for running out of fuel. -/
def generate_class_code_from (rng : Nat → Fin 36) (existing : List String) :
    Nat → Nat → Option String
  | _, 0 => none
  | attempt, fuel + 1 =>
    let code := candidateCode rng attempt
    if existing.contains code then
      generate_class_code_from rng existing (attempt + 1) fuel
    else some code

/-- Embedding of `Class.generate_class_code` against a database: the existing set is
every class's code, regardless of its active flag. -/
def generate_class_code (rng : Nat → Fin 36) (db : DB) (fuel : Nat) : Option String :=
  generate_class_code_from rng (db.classes.map (fun c => c.classCode)) 0 fuel

/-- Outcome of `join_class` (views.py lines 201-226). -/
inductive JoinResult where
  | notStudent
  | invalidCode
  | alreadyEnrolled
  | joined
deriving DecidableEq, Repr

/-- The lookup both `JoinClassForm.clean_class_code` and the view
perform: upper-case the code, then find an active class carrying it. -/
def findClassByCode (db : DB) (code : String) : Option ClassRec :=
  db.classes.find? (fun c => c.classCode == upperStr code && c.isActive)

/-- Embedding of `join_class` (views.py lines 201-226) under `@student_required`:
resolve the code to an active class, warn and change nothing when any
enrollment row for (student, class) exists — the filter at line 213 has
no `is_active` clause — otherwise create an active enrollment. -/
def join_class (db : DB) (student : User) (code : String) : JoinResult × DB :=
  if student.role ≠ Role.STUDENT then (.notStudent, db)
  else
    match findClassByCode db code with
    | none => (.invalidCode, db)
    | some cls =>
      if db.enrollments.any (fun e => e.studentId == student.id && e.classId == cls.id) then
        (.alreadyEnrolled, db)
      else
        (.joined, { db with
          enrollments := db.enrollments ++ [⟨student.id, cls.id, true⟩] })

/-- Outcome of `submit_assignment` (views.py lines 631-675). -/
inductive SubmitResult where
  | notStudent
  | notFound404
  | notEnrolled
  | alreadySubmitted
  | integrityError
  | saveError
  | submitted
deriving DecidableEq, Repr

/-- The database insert behind `Submission.objects` creation: the
`unique_together ['assignment', 'student']` constraint (models.py line
246) rejects a row whose (assignment, student) pair is already present. -/
def insertSubmission (subs : List Submission) (s : Submission) :
    Except Unit (List Submission) :=
  if subs.any (fun t => t.assignmentId == s.assignmentId && t.studentId == s.studentId) then
    Except.error ()
  else Except.ok (subs ++ [s])

/-- Embedding of `submit_assignment` (views.py lines 631-675) under
`@student_required`: 404 unless the assignment is published; reject
when no active enrollment in its class exists; when a prior submission
exists and late submission is not allowed, warn and change nothing;
otherwise build a fresh submission from the form, run `Submission.save`
(stamping the time and classifying the status) and insert it, the
insert being subject to the unique (assignment, student) constraint. -/
def submit_assignment (db : DB) (student : User) (assignment : Assignment)
    (fileName : String) (now : Int) : SubmitResult × DB :=
  if student.role ≠ Role.STUDENT then (.notStudent, db)
  else if ¬ assignment.isPublished then (.notFound404, db)
  else if ¬ db.enrollments.any (fun e =>
      e.studentId == student.id && e.classId == assignment.classId && e.isActive) then
    (.notEnrolled, db)
  else
    let existing := db.submissions.find? (fun s =>
      s.assignmentId == assignment.id && s.studentId == student.id)
    if existing.isSome ∧ ¬ assignment.allowLateSubmission then
      (.alreadySubmitted, db)
    else
      let sub0 : Submission :=
        { pk := none, assignmentId := assignment.id, studentId := student.id,
          fileName := fileName, submittedAt := none, status := none,
          points := none, feedback := "" }
      match Submission.save now assignment.dueDate sub0 with
      | none => (.saveError, db)
      | some sub =>
        match insertSubmission db.submissions sub with
        | Except.error _ => (.integrityError, db)
        | Except.ok subs => (.submitted, { db with submissions := subs })

/-- The result of Python's `int(points) if points else None` on the
POSTed points field: `blank` for a falsy string (→ `None`), `invalid`
for a non-numeric string (→ `ValueError`), `valid n` for a parse. -/
inductive PointsInput where
  | blank
  | invalid
  | valid (n : Int)
deriving DecidableEq, Repr

/-- Outcome of `grade_submission` (views.py lines 678-712). -/
inductive GradeResult where
  | notTeacher
  | accessDenied
  | rejectedBlank
  | rejectedInvalid
  | rejectedRange
  | saveError
  | success
deriving DecidableEq, Repr

/-- The in-memory Python object the grading view mutates: the model row
plus the plain attribute `graded_at` the view assigns at line 701.
`graded_at` is not a field of the `Submission` model, so Django's save
writes only `row`; the attribute never reaches the database. -/
structure SubmissionObj where
  row : Submission
  gradedAt : Option Int
deriving DecidableEq, Repr

/-- Persisting a `SubmissionObj`: `submission.save()` runs the model's
save over the declared fields only, dropping the `gradedAt` attribute. -/
def persistSubmission (now dueDate : Int) (o : SubmissionObj) : Option Submission :=
  Submission.save now dueDate o.row

/-- Embedding of `grade_submission` (views.py lines 678-712) under
`@teacher_required`: deny unless the acting teacher owns the class of
the submission's assignment; reject a blank or non-numeric points field
and points outside [0, max_points], each rejection leaving the row
untouched; on success assign points and feedback on the object, assign
the non-field `graded_at` attribute, and save — the saved row is
returned. -/
def grade_submission (teacher : User) (cls : ClassRec) (assignment : Assignment)
    (sub : Submission) (input : PointsInput) (feedback : String) (now : Int) :
    GradeResult × Submission :=
  if teacher.role ≠ Role.TEACHER then (.notTeacher, sub)
  else if cls.teacherId ≠ teacher.id then (.accessDenied, sub)
  else
    match input with
    | .blank => (.rejectedBlank, sub)
    | .invalid => (.rejectedInvalid, sub)
    | .valid n =>
      if n < 0 ∨ n > assignment.maxPoints then (.rejectedRange, sub)
      else
        let obj : SubmissionObj :=
          { row := { sub with points := some n, feedback := feedback },
            gradedAt := some now }
        match persistSubmission now assignment.dueDate obj with
        | none => (.saveError, sub)
        | some row => (.success, row)

/-- Outcome of the teacher edit/delete views. -/
inductive EditResult where
  | notTeacher
  | notFound404
  | accessDenied
  | mutated
deriving DecidableEq, Repr

/-- The form payload of `ClassCreateForm` (forms.py: fields name,
description, subject, room). -/
structure ClassForm where
  name : String
  description : String
  subject : String
  room : String
deriving DecidableEq, Repr

/-- Embedding of `edit_class` (views.py lines 271-287) under `@teacher_required`:
`get_object_or_404(Class, id=class_id, teacher=request.user)` 404s for
a non-owner; on success the form updates name, description, subject and
room of that class row. -/
def edit_class (db : DB) (teacher : User) (classId : Nat) (form : ClassForm) :
    EditResult × DB :=
  if teacher.role ≠ Role.TEACHER then (.notTeacher, db)
  else
    match db.classes.find? (fun c => c.id == classId && c.teacherId == teacher.id) with
    | none => (.notFound404, db)
    | some _ =>
      (.mutated, { db with
        classes := db.classes.map (fun c =>
          if c.id == classId then
            { c with
              name := form.name,
              description := form.description,
              subject := form.subject,
              room := form.room }
          else c) })

/-- Embedding of `delete_class` (views.py lines 290-301) under `@teacher_required`:
404 for a non-owner; on POST it only flips the class's `is_active` flag
to False and saves — no row of any table is removed. -/
def delete_class (db : DB) (teacher : User) (classId : Nat) : EditResult × DB :=
  if teacher.role ≠ Role.TEACHER then (.notTeacher, db)
  else
    match db.classes.find? (fun c => c.id == classId && c.teacherId == teacher.id) with
    | none => (.notFound404, db)
    | some _ =>
      (.mutated, { db with
        classes := db.classes.map (fun c =>
          if c.id == classId then { c with isActive := false } else c) })

/-- The form payload of `LessonForm` (forms.py: fields title,
description, order, is_published). -/
structure LessonForm where
  title : String
  description : String
  order : Int
  isPublished : Bool
deriving DecidableEq, Repr

/-- Embedding of `edit_lesson` (views.py lines 406-455) under `@teacher_required`:
fetch the lesson by id (404 when absent), redirect with an error when
the lesson's class is not owned by the acting teacher, otherwise apply
the form fields. -/
def edit_lesson (db : DB) (teacher : User) (lessonId : Nat) (form : LessonForm) :
    EditResult × DB :=
  if teacher.role ≠ Role.TEACHER then (.notTeacher, db)
  else
    match db.lessons.find? (fun l => l.id == lessonId) with
    | none => (.notFound404, db)
    | some lesson =>
      match db.classes.find? (fun c => c.id == lesson.classId) with
      | none => (.notFound404, db)
      | some cls =>
        if cls.teacherId ≠ teacher.id then (.accessDenied, db)
        else
          (.mutated, { db with
            lessons := db.lessons.map (fun l =>
              if l.id == lessonId then
                { l with
                  title := form.title,
                  description := form.description,
                  order := form.order,
                  isPublished := form.isPublished }
              else l) })

/-- Embedding of `delete_lesson` (views.py lines 458-474) under `@teacher_required`:
fetch by id, redirect for a non-owner, otherwise delete the lesson row. -/
def delete_lesson (db : DB) (teacher : User) (lessonId : Nat) : EditResult × DB :=
  if teacher.role ≠ Role.TEACHER then (.notTeacher, db)
  else
    match db.lessons.find? (fun l => l.id == lessonId) with
    | none => (.notFound404, db)
    | some lesson =>
      match db.classes.find? (fun c => c.id == lesson.classId) with
      | none => (.notFound404, db)
      | some cls =>
        if cls.teacherId ≠ teacher.id then (.accessDenied, db)
        else
          (.mutated, { db with
            lessons := db.lessons.filter (fun l => l.id ≠ lessonId) })

/-- The form payload of `AssignmentForm` (forms.py: fields title,
description, due_date, max_points, allow_late_submission, is_published). -/
structure AssignmentForm where
  title : String
  description : String
  dueDate : Int
  maxPoints : Int
  allowLateSubmission : Bool
  isPublished : Bool
deriving DecidableEq, Repr

/-- Embedding of `edit_assignment` (views.py lines 585-609) under
`@teacher_required`: fetch by id, redirect for a non-owner, otherwise
apply the form fields. -/
def edit_assignment (db : DB) (teacher : User) (assignmentId : Nat)
    (form : AssignmentForm) : EditResult × DB :=
  if teacher.role ≠ Role.TEACHER then (.notTeacher, db)
  else
    match db.assignments.find? (fun a => a.id == assignmentId) with
    | none => (.notFound404, db)
    | some assignment =>
      match db.classes.find? (fun c => c.id == assignment.classId) with
      | none => (.notFound404, db)
      | some cls =>
        if cls.teacherId ≠ teacher.id then (.accessDenied, db)
        else
          (.mutated, { db with
            assignments := db.assignments.map (fun a =>
              if a.id == assignmentId then
                { a with
                  title := form.title,
                  description := form.description,
                  dueDate := form.dueDate,
                  maxPoints := form.maxPoints,
                  allowLateSubmission := form.allowLateSubmission,
                  isPublished := form.isPublished }
              else a) })

/-- Embedding of `delete_assignment` (views.py lines 612-628) under
`@teacher_required`: fetch by id, redirect for a non-owner, otherwise
delete the assignment row, the cascade removing its submissions. -/
def delete_assignment (db : DB) (teacher : User) (assignmentId : Nat) :
    EditResult × DB :=
  if teacher.role ≠ Role.TEACHER then (.notTeacher, db)
  else
    match db.assignments.find? (fun a => a.id == assignmentId) with
    | none => (.notFound404, db)
    | some assignment =>
      match db.classes.find? (fun c => c.id == assignment.classId) with
      | none => (.notFound404, db)
      | some cls =>
        if cls.teacherId ≠ teacher.id then (.accessDenied, db)
        else
          (.mutated, { db with
            assignments := db.assignments.filter (fun a => a.id ≠ assignmentId),
            submissions := db.submissions.filter (fun s => s.assignmentId ≠ assignmentId) })

/-- A database with a single class carrying the code BBBBBB. -/
def exCodeDB : DB :=
  { classes := [⟨7, "Old", "", 10, "BBBBBB", "", "", false⟩],
    enrollments := [], lessons := [], assignments := [],
    announcements := [], submissions := [] }

/-- A teacher owning the example class. -/
def exTeacher : User := ⟨10, Role.TEACHER⟩

/-- A student enrolled in the example class. -/
def exStudent : User := ⟨20, Role.STUDENT⟩

/-- The example class, owned by `exTeacher`. -/
def exClass : ClassRec := ⟨1, "Math", "", 10, "ABC123", "Math", "201", true⟩

/-- A published assignment of the example class: due at time 100, worth
100 points, late submission allowed. -/
def exAssignment : Assignment := ⟨1, 1, "HW1", "", 100, 100, true, true⟩

/-- A saved, ungraded, on-time submission by `exStudent` for
`exAssignment`. -/
def exSubmission : Submission :=
  ⟨some 1, 1, 20, "hw.pdf", some 50, some SubmissionStatus.ON_TIME, none, ""⟩

/-- The example database tying the rows above together. -/
def exDB : DB :=
  { classes := [exClass], enrollments := [⟨20, 1, true⟩], lessons := [],
    assignments := [exAssignment], announcements := [], submissions := [exSubmission] }

/-- A teacher who owns nothing in the example database. -/
def otherTeacher : User := ⟨99, Role.TEACHER⟩

/-- A lesson of the example class. -/
def exLesson : Lesson := ⟨1, 1, "L1", "", 0, true⟩

/-- The example database extended with the lesson, for the ownership
witness. -/
def exDB7 : DB :=
  { classes := [exClass], enrollments := [], lessons := [exLesson],
    assignments := [exAssignment], announcements := [], submissions := [] }

/-- A concrete class form payload. -/
def exClassForm : ClassForm := ⟨"New name", "d", "s", "r"⟩

/-- A concrete lesson form payload. -/
def exLessonForm : LessonForm := ⟨"New title", "d", 1, true⟩

/-- A concrete assignment form payload. -/
def exAssignmentForm : AssignmentForm := ⟨"New title", "d", 200, 50, false, true⟩



/-- C1: a submission saved for the first time (`pk = none`) with no
status supplied gets status ON_TIME exactly when its submission
timestamp is at or before the assignment due date, and LATE exactly
when it is after. -/
theorem first_save_classifies_status (s : Submission) (now dueDate : Int)
    (hpk : s.pk = none) (hst : s.status = none) :
    ∃ s' t, Submission.save now dueDate s = some s' ∧ s'.submittedAt = some t ∧
      (s'.status = some SubmissionStatus.ON_TIME ↔ t ≤ dueDate) ∧
      (s'.status = some SubmissionStatus.LATE ↔ dueDate < t) := by
  rcases hsub : s.submittedAt with _ | t0
  · by_cases hle : now ≤ dueDate
    · refine ⟨{ s with submittedAt := some now, status := some SubmissionStatus.ON_TIME },
        now, ?_⟩
      refine ⟨?_, rfl, ?_, ?_⟩ <;>
        simp [Submission.save, hpk, hst, hsub, hle]
    · refine ⟨{ s with submittedAt := some now, status := some SubmissionStatus.LATE },
        now, ?_⟩
      refine ⟨?_, rfl, ?_, ?_⟩ <;>
        simp [Submission.save, hpk, hst, hsub, hle]
      omega
  · by_cases hle : t0 ≤ dueDate
    · refine ⟨{ s with status := some SubmissionStatus.ON_TIME }, t0, ?_⟩
      refine ⟨?_, ?_, ?_, ?_⟩ <;>
        simp [Submission.save, hpk, hst, hsub, hle]
    · refine ⟨{ s with status := some SubmissionStatus.LATE }, t0, ?_⟩
      refine ⟨?_, ?_, ?_, ?_⟩ <;>
        simp [Submission.save, hpk, hst, hsub, hle]
      omega

/-- Witness for C1 at a concrete on-time submission. -/
theorem first_save_classifies_status_witness :
    ∃ s' t,
      Submission.save 5 10
        { pk := none, assignmentId := 1, studentId := 20, fileName := "hw.pdf",
          submittedAt := none, status := none, points := none, feedback := "" }
        = some s' ∧
      s'.submittedAt = some t ∧
      (s'.status = some SubmissionStatus.ON_TIME ↔ t ≤ 10) ∧
      (s'.status = some SubmissionStatus.LATE ↔ 10 < t) :=
  first_save_classifies_status _ 5 10 rfl rfl

/-- C8: the upload validator chain fails exactly when the lower-cased
extension is outside the allow-list or the size strictly exceeds
10 MiB; in particular a file of exactly 10 MiB with an allowed
extension passes. -/
theorem file_validation_iff (name : String) (size : Nat) :
    ((validate_file name size).isOk = false ↔
      (valid_extensions.contains (fileExt name) = false ∨ FILE_SIZE_LIMIT < size)) ∧
    (valid_extensions.contains (fileExt name) = true →
      (validate_file name FILE_SIZE_LIMIT).isOk = true) := by
  by_cases hext : valid_extensions.contains (fileExt name) = true
  · have h1 : validate_file_extension name = Except.ok () := by
      unfold validate_file_extension
      rw [if_pos hext]
    refine ⟨?_, fun _ => ?_⟩
    · by_cases hsz : FILE_SIZE_LIMIT < size
      · have h2 : (validate_file name size).isOk = false := by
          unfold validate_file validate_file_size
          rw [h1, if_pos hsz]
          rfl
        simp [h2, hsz]
      · have h2 : (validate_file name size).isOk = true := by
          unfold validate_file validate_file_size
          rw [h1, if_neg hsz]
          rfl
        simp [h2, hext, hsz]
        simpa using hext
    · have h2 : (validate_file name FILE_SIZE_LIMIT).isOk = true := by
        unfold validate_file validate_file_size
        rw [h1, if_neg (by omega)]
        rfl
      exact h2
  · have h1 : (validate_file name size).isOk = false := by
      unfold validate_file validate_file_extension
      rw [if_neg hext]
      rfl
    refine ⟨?_, fun h => absurd h hext⟩
    simp [h1]
    exact Or.inl (by simpa using hext)

/-- Witness for C8: a file named with an upper-case allowed extension
at exactly the 10 MiB ceiling passes validation. -/
theorem file_validation_iff_witness :
    (validate_file "report.PDF" FILE_SIZE_LIMIT).isOk = true :=
  (file_validation_iff "report.PDF" 123).2 (by decide)

/-- Every pick from the alphabet lands in the alphabet. -/
theorem codeChar_mem : ∀ (i : Fin 36), codeChar i ∈ codeAlphabet := by decide

/-- A candidate code always has length 6. -/
theorem candidateCode_length (rng : Nat → Fin 36) (attempt : Nat) :
    (candidateCode rng attempt).length = 6 := by
  simp [candidateCode, String.length]

/-- Every character of a candidate code comes from the alphabet. -/
theorem candidateCode_chars (rng : Nat → Fin 36) (attempt : Nat) :
    ∀ ch ∈ (candidateCode rng attempt).toList, ch ∈ codeAlphabet := by
  intro ch hch
  simp only [candidateCode, String.toList, String.mk, List.mem_map] at hch
  obtain ⟨j, _, hj⟩ := hch
  exact hj ▸ codeChar_mem _

/-- The retry loop only ever returns a candidate code that is not in
the existing set. -/
theorem generate_from_spec (rng : Nat → Fin 36) (existing : List String) :
    ∀ fuel attempt code,
      generate_class_code_from rng existing attempt fuel = some code →
      (∃ a, code = candidateCode rng a) ∧ existing.contains code = false := by
  intro fuel
  induction fuel with
  | zero => intro attempt code h; simp [generate_class_code_from] at h
  | succ n ih =>
    intro attempt code h
    unfold generate_class_code_from at h
    by_cases hc : existing.contains (candidateCode rng attempt) = true
    · rw [if_pos hc] at h
      exact ih _ _ h
    · rw [if_neg hc] at h
      cases h
      exact ⟨⟨attempt, rfl⟩, Bool.eq_false_iff.mpr hc⟩

/-- C4: any code the generator returns has length 6, consists only of
uppercase letters and digits, and differs from the class code of every
existing class, active or inactive alike. -/
theorem generated_code_spec (rng : Nat → Fin 36) (db : DB) (fuel : Nat) (code : String)
    (h : generate_class_code rng db fuel = some code) :
    code.length = 6 ∧ (∀ ch ∈ code.toList, ch ∈ codeAlphabet) ∧
      ∀ c ∈ db.classes, c.classCode ≠ code := by
  obtain ⟨⟨a, rfl⟩, hni⟩ := generate_from_spec rng _ fuel 0 code h
  refine ⟨candidateCode_length rng a, candidateCode_chars rng a, ?_⟩
  intro c hc heq
  have hmem : candidateCode rng a ∈ db.classes.map (fun c => c.classCode) :=
    List.mem_map.mpr ⟨c, hc, heq⟩
  simp [List.contains, hmem] at hni

/-- Witness for C4: a constant RNG produces AAAAAA on the first try
against a database holding only the (inactive) code BBBBBB. -/
theorem generated_code_spec_witness :
    ("AAAAAA" : String).length = 6 ∧
      (∀ ch ∈ ("AAAAAA" : String).toList, ch ∈ codeAlphabet) ∧
      ∀ c ∈ exCodeDB.classes, c.classCode ≠ "AAAAAA" :=
  generated_code_spec (fun _ => ⟨0, by decide⟩) exCodeDB 1 "AAAAAA" (by decide)

/-- Any enrollment row for the (student, class) pair, active or not,
makes a join attempt warn and leave the database unchanged. -/
theorem join_class_noop_of_enrollment (db : DB) (student : User) (code : String)
    (cls : ClassRec) (e : Enrollment)
    (hrole : student.role = Role.STUDENT)
    (hfind : findClassByCode db code = some cls)
    (he : e ∈ db.enrollments)
    (hes : e.studentId = student.id) (hec : e.classId = cls.id) :
    join_class db student code = (JoinResult.alreadyEnrolled, db) := by
  have hany : (db.enrollments.any fun x =>
      x.studentId == student.id && x.classId == cls.id) = true :=
    List.any_eq_true.mpr ⟨e, he, by simp [hes, hec]⟩
  unfold join_class
  rw [if_neg (by simp [hrole]), hfind]
  simp [hany]

/-- C6: when a student already has any enrollment row for the class the
code resolves to, a second join attempt is a no-op: it warns and
returns the database unchanged, so no second enrollment is created and
the existing one is untouched. -/
theorem join_class_duplicate_noop (db : DB) (student : User) (code : String)
    (cls : ClassRec) (e : Enrollment)
    (hrole : student.role = Role.STUDENT)
    (hfind : findClassByCode db code = some cls)
    (he : e ∈ db.enrollments)
    (hes : e.studentId = student.id) (hec : e.classId = cls.id) :
    join_class db student code = (JoinResult.alreadyEnrolled, db) :=
  join_class_noop_of_enrollment db student code cls e hrole hfind he hes hec

/-- Witness for C6: a concrete second join of an already enrolled
student changes nothing. -/
theorem join_class_duplicate_noop_witness :
    join_class
      { classes := [⟨1, "Math", "", 10, "ABC123", "", "", true⟩],
        enrollments := [⟨20, 1, true⟩], lessons := [], assignments := [],
        announcements := [], submissions := [] }
      ⟨20, Role.STUDENT⟩ "abc123"
      = (JoinResult.alreadyEnrolled,
        { classes := [⟨1, "Math", "", 10, "ABC123", "", "", true⟩],
          enrollments := [⟨20, 1, true⟩], lessons := [], assignments := [],
          announcements := [], submissions := [] }) :=
  join_class_duplicate_noop _ _ _
    ⟨1, "Math", "", 10, "ABC123", "", "", true⟩ ⟨20, 1, true⟩
    rfl (by decide) (by decide) rfl rfl

/-- C9: a student whose enrollment was deactivated cannot rejoin via
the class code: the duplicate check matches the inactive row, so the
join attempt neither creates a new enrollment nor reactivates the old
one, which remains present and inactive. -/
theorem join_class_deactivated_no_rejoin (db : DB) (student : User) (code : String)
    (cls : ClassRec) (e : Enrollment)
    (hrole : student.role = Role.STUDENT)
    (hfind : findClassByCode db code = some cls)
    (he : e ∈ db.enrollments)
    (hes : e.studentId = student.id) (hec : e.classId = cls.id)
    (hia : e.isActive = false) :
    (join_class db student code).1 = JoinResult.alreadyEnrolled ∧
      (join_class db student code).2.enrollments = db.enrollments ∧
      e ∈ (join_class db student code).2.enrollments ∧ e.isActive = false := by
  have h : join_class db student code = (JoinResult.alreadyEnrolled, db) :=
    join_class_noop_of_enrollment db student code cls e hrole hfind he hes hec
  rw [h]
  exact ⟨rfl, rfl, he, hia⟩

/-- Witness for C9: a concrete deactivated student fails to rejoin and
the inactive row survives unchanged. -/
theorem join_class_deactivated_no_rejoin_witness :
    (join_class
      { classes := [⟨1, "Math", "", 10, "ABC123", "", "", true⟩],
        enrollments := [⟨21, 1, false⟩], lessons := [], assignments := [],
        announcements := [], submissions := [] }
      ⟨21, Role.STUDENT⟩ "ABC123").1 = JoinResult.alreadyEnrolled ∧
    (join_class
      { classes := [⟨1, "Math", "", 10, "ABC123", "", "", true⟩],
        enrollments := [⟨21, 1, false⟩], lessons := [], assignments := [],
        announcements := [], submissions := [] }
      ⟨21, Role.STUDENT⟩ "ABC123").2.enrollments = [⟨21, 1, false⟩] ∧
    (⟨21, 1, false⟩ : Enrollment) ∈ (join_class
      { classes := [⟨1, "Math", "", 10, "ABC123", "", "", true⟩],
        enrollments := [⟨21, 1, false⟩], lessons := [], assignments := [],
        announcements := [], submissions := [] }
      ⟨21, Role.STUDENT⟩ "ABC123").2.enrollments ∧
    (⟨21, 1, false⟩ : Enrollment).isActive = false :=
  join_class_deactivated_no_rejoin _ _ _
    ⟨1, "Math", "", 10, "ABC123", "", "", true⟩ ⟨21, 1, false⟩
    rfl (by decide) (by decide) rfl rfl rfl

/-- C2 (against the source): a fully valid grading request by the
owning teacher succeeds and persists points and feedback, but the
persisted row's status is still ON_TIME — the grading operation never
sets GRADED, and the `graded_at` attribute it assigns is not a field of
the `Submission` model, so no graded timestamp reaches the database. -/
theorem grading_persists_points_but_not_graded_status :
    (grade_submission exTeacher exClass exAssignment exSubmission
      (PointsInput.valid 95) "Great work!" 200).1 = GradeResult.success ∧
    (grade_submission exTeacher exClass exAssignment exSubmission
      (PointsInput.valid 95) "Great work!" 200).2.points = some 95 ∧
    (grade_submission exTeacher exClass exAssignment exSubmission
      (PointsInput.valid 95) "Great work!" 200).2.feedback = "Great work!" ∧
    (grade_submission exTeacher exClass exAssignment exSubmission
      (PointsInput.valid 95) "Great work!" 200).2.status
      = some SubmissionStatus.ON_TIME ∧
    (grade_submission exTeacher exClass exAssignment exSubmission
      (PointsInput.valid 95) "Great work!" 200).2.status
      ≠ some SubmissionStatus.GRADED := by
  decide

/-- C3: a grading request whose points field is blank, non-numeric, or
an integer outside [0, max_points] is rejected and returns the
submission row exactly as it was. -/
theorem grading_invalid_input_unmodified (teacher : User) (cls : ClassRec)
    (assignment : Assignment) (sub : Submission) (input : PointsInput)
    (fb : String) (now : Int)
    (hbad : input = PointsInput.blank ∨ input = PointsInput.invalid ∨
      ∃ n, input = PointsInput.valid n ∧ (n < 0 ∨ n > assignment.maxPoints)) :
    (grade_submission teacher cls assignment sub input fb now).2 = sub ∧
    (grade_submission teacher cls assignment sub input fb now).1
      ≠ GradeResult.success := by
  unfold grade_submission
  by_cases hrole : teacher.role ≠ Role.TEACHER
  · rw [if_pos hrole]; exact ⟨rfl, by simp⟩
  · rw [if_neg hrole]
    by_cases hown : cls.teacherId ≠ teacher.id
    · rw [if_pos hown]; exact ⟨rfl, by simp⟩
    · rw [if_neg hown]
      rcases hbad with h | h | ⟨n, h, hrange⟩ <;> subst h
      · exact ⟨rfl, by simp⟩
      · exact ⟨rfl, by simp⟩
      · refine ⟨?_, ?_⟩ <;> simp [hrange]

/-- Witness for C3: grading with 101 points on a 100-point assignment
is rejected and the concrete submission row is unchanged. -/
theorem grading_invalid_input_unmodified_witness :
    (grade_submission exTeacher exClass exAssignment exSubmission
      (PointsInput.valid 101) "x" 0).2 = exSubmission ∧
    (grade_submission exTeacher exClass exAssignment exSubmission
      (PointsInput.valid 101) "x" 0).1 ≠ GradeResult.success :=
  grading_invalid_input_unmodified exTeacher exClass exAssignment exSubmission
    (PointsInput.valid 101) "x" 0
    (Or.inr (Or.inr ⟨101, rfl, by decide⟩))

/-- Counterexample to C5 as stated: `exAssignment` allows late
submission and `exStudent` already has a submission for it, yet the
second submission attempt does not succeed — the view bypasses its
duplicate check but the unique (assignment, student) constraint rejects
the insert, leaving the database unchanged. -/
theorem resubmission_allowed_still_fails :
    exAssignment.allowLateSubmission = true ∧
    (∃ s ∈ exDB.submissions,
      s.assignmentId = exAssignment.id ∧ s.studentId = exStudent.id) ∧
    (submit_assignment exDB exStudent exAssignment "again.pdf" 50).1
      = SubmitResult.integrityError ∧
    (submit_assignment exDB exStudent exAssignment "again.pdf" 50).2 = exDB := by
  decide

/-- C5 amended: a second submission attempt never succeeds. Without
late submission allowed the view rejects it with a warning; with it
allowed the view proceeds but the database's unique (assignment,
student) constraint rejects the insert. Either way the database is
unchanged. -/
theorem resubmission_never_succeeds (db : DB) (student : User)
    (assignment : Assignment) (fileName : String) (now : Int)
    (hrole : student.role = Role.STUDENT)
    (hpub : assignment.isPublished = true)
    (henr : (db.enrollments.any fun e => e.studentId == student.id &&
      e.classId == assignment.classId && e.isActive) = true)
    (s : Submission) (hs : s ∈ db.submissions)
    (hsa : s.assignmentId = assignment.id) (hss : s.studentId = student.id) :
    (submit_assignment db student assignment fileName now).2 = db ∧
    (submit_assignment db student assignment fileName now).1 =
      (if assignment.allowLateSubmission then SubmitResult.integrityError
       else SubmitResult.alreadySubmitted) := by
  have hex : (db.submissions.find? fun x =>
      x.assignmentId == assignment.id && x.studentId == student.id).isSome = true := by
    rw [List.find?_isSome]
    exact ⟨s, hs, by simp [hsa, hss]⟩
  have hany2 : (db.submissions.any fun t =>
      t.assignmentId == assignment.id && t.studentId == student.id) = true :=
    List.any_eq_true.mpr ⟨s, hs, by simp [hsa, hss]⟩
  by_cases hlate : assignment.allowLateSubmission = true
  · by_cases hle : now ≤ assignment.dueDate
    · simp [submit_assignment, Submission.save, insertSubmission,
        hrole, hpub, henr, hex, hlate, hle, hany2]
    · simp [submit_assignment, Submission.save, insertSubmission,
        hrole, hpub, henr, hex, hlate, hle, hany2]
  · simp [submit_assignment, hrole, hpub, henr, hex, hlate]

/-- Witness for the amended C5 at the concrete example database: late
submission is allowed, so the view proceeds and the constraint fires. -/
theorem resubmission_never_succeeds_witness :
    (submit_assignment exDB exStudent exAssignment "again.pdf" 50).2 = exDB ∧
    (submit_assignment exDB exStudent exAssignment "again.pdf" 50).1 =
      (if exAssignment.allowLateSubmission then SubmitResult.integrityError
       else SubmitResult.alreadySubmitted) :=
  resubmission_never_succeeds exDB exStudent exAssignment "again.pdf" 50 rfl rfl
    (by decide) exSubmission (by decide) rfl rfl

/-- When no class row matches both the id and the acting teacher, the
owner-filtered lookup of `edit_class`/`delete_class` yields nothing. -/
theorem find_owned_class_eq_none (db : DB) (teacher : User) (classId : Nat)
    (h : ∀ c ∈ db.classes, c.id = classId → c.teacherId ≠ teacher.id) :
    (db.classes.find? fun c => c.id == classId && c.teacherId == teacher.id) = none := by
  rw [List.find?_eq_none]
  intro c hc hp
  simp only [Bool.and_eq_true, beq_iff_eq] at hp
  exact h c hc hp.1 hp.2

/-- A non-owner's class edit is a 404 and leaves the database unchanged. -/
theorem edit_class_denied (db : DB) (teacher : User) (classId : Nat)
    (cform : ClassForm)
    (h : ∀ c ∈ db.classes, c.id = classId → c.teacherId ≠ teacher.id) :
    (edit_class db teacher classId cform).1 ≠ EditResult.mutated ∧
      (edit_class db teacher classId cform).2 = db := by
  unfold edit_class
  by_cases hrole : teacher.role ≠ Role.TEACHER
  · rw [if_pos hrole]
    exact ⟨by simp, rfl⟩
  · rw [if_neg hrole, find_owned_class_eq_none db teacher classId h]
    exact ⟨by simp, rfl⟩

/-- A non-owner's class delete is a 404 and leaves the database unchanged. -/
theorem delete_class_denied (db : DB) (teacher : User) (classId : Nat)
    (h : ∀ c ∈ db.classes, c.id = classId → c.teacherId ≠ teacher.id) :
    (delete_class db teacher classId).1 ≠ EditResult.mutated ∧
      (delete_class db teacher classId).2 = db := by
  unfold delete_class
  by_cases hrole : teacher.role ≠ Role.TEACHER
  · rw [if_pos hrole]
    exact ⟨by simp, rfl⟩
  · rw [if_neg hrole, find_owned_class_eq_none db teacher classId h]
    exact ⟨by simp, rfl⟩

/-- A teacher who owns no class of the lesson being edited is denied
and the database is unchanged. -/
theorem edit_lesson_denied (db : DB) (teacher : User) (lessonId : Nat)
    (lform : LessonForm)
    (h : ∀ l ∈ db.lessons, l.id = lessonId →
      ∀ c ∈ db.classes, c.id = l.classId → c.teacherId ≠ teacher.id) :
    (edit_lesson db teacher lessonId lform).1 ≠ EditResult.mutated ∧
      (edit_lesson db teacher lessonId lform).2 = db := by
  unfold edit_lesson
  by_cases hrole : teacher.role ≠ Role.TEACHER
  · rw [if_pos hrole]
    exact ⟨by simp, rfl⟩
  · rw [if_neg hrole]
    cases hfl : db.lessons.find? (fun l => l.id == lessonId) with
    | none => simp [hfl]
    | some lesson =>
      have hl1 : lesson ∈ db.lessons := List.mem_of_find?_eq_some hfl
      have hl2 : lesson.id = lessonId := by
        have := List.find?_some hfl
        simpa using this
      cases hfc : db.classes.find? (fun c => c.id == lesson.classId) with
      | none => simp [hfl, hfc]
      | some cls =>
        have hc1 : cls ∈ db.classes := List.mem_of_find?_eq_some hfc
        have hc2 : cls.id = lesson.classId := by
          have := List.find?_some hfc
          simpa using this
        have hne : cls.teacherId ≠ teacher.id := h lesson hl1 hl2 cls hc1 hc2
        simp [hfl, hfc, hne]

/-- A teacher who owns no class of the lesson being deleted is denied
and the database is unchanged. -/
theorem delete_lesson_denied (db : DB) (teacher : User) (lessonId : Nat)
    (h : ∀ l ∈ db.lessons, l.id = lessonId →
      ∀ c ∈ db.classes, c.id = l.classId → c.teacherId ≠ teacher.id) :
    (delete_lesson db teacher lessonId).1 ≠ EditResult.mutated ∧
      (delete_lesson db teacher lessonId).2 = db := by
  unfold delete_lesson
  by_cases hrole : teacher.role ≠ Role.TEACHER
  · rw [if_pos hrole]
    exact ⟨by simp, rfl⟩
  · rw [if_neg hrole]
    cases hfl : db.lessons.find? (fun l => l.id == lessonId) with
    | none => simp [hfl]
    | some lesson =>
      have hl1 : lesson ∈ db.lessons := List.mem_of_find?_eq_some hfl
      have hl2 : lesson.id = lessonId := by
        have := List.find?_some hfl
        simpa using this
      cases hfc : db.classes.find? (fun c => c.id == lesson.classId) with
      | none => simp [hfl, hfc]
      | some cls =>
        have hc1 : cls ∈ db.classes := List.mem_of_find?_eq_some hfc
        have hc2 : cls.id = lesson.classId := by
          have := List.find?_some hfc
          simpa using this
        have hne : cls.teacherId ≠ teacher.id := h lesson hl1 hl2 cls hc1 hc2
        simp [hfl, hfc, hne]

/-- A teacher who owns no class of the assignment being edited is
denied and the database is unchanged. -/
theorem edit_assignment_denied (db : DB) (teacher : User) (assignmentId : Nat)
    (aform : AssignmentForm)
    (h : ∀ a ∈ db.assignments, a.id = assignmentId →
      ∀ c ∈ db.classes, c.id = a.classId → c.teacherId ≠ teacher.id) :
    (edit_assignment db teacher assignmentId aform).1 ≠ EditResult.mutated ∧
      (edit_assignment db teacher assignmentId aform).2 = db := by
  unfold edit_assignment
  by_cases hrole : teacher.role ≠ Role.TEACHER
  · rw [if_pos hrole]
    exact ⟨by simp, rfl⟩
  · rw [if_neg hrole]
    cases hfa : db.assignments.find? (fun a => a.id == assignmentId) with
    | none => simp [hfa]
    | some assignment =>
      have ha1 : assignment ∈ db.assignments := List.mem_of_find?_eq_some hfa
      have ha2 : assignment.id = assignmentId := by
        have := List.find?_some hfa
        simpa using this
      cases hfc : db.classes.find? (fun c => c.id == assignment.classId) with
      | none => simp [hfa, hfc]
      | some cls =>
        have hc1 : cls ∈ db.classes := List.mem_of_find?_eq_some hfc
        have hc2 : cls.id = assignment.classId := by
          have := List.find?_some hfc
          simpa using this
        have hne : cls.teacherId ≠ teacher.id := h assignment ha1 ha2 cls hc1 hc2
        simp [hfa, hfc, hne]

/-- A teacher who owns no class of the assignment being deleted is
denied and the database is unchanged. -/
theorem delete_assignment_denied (db : DB) (teacher : User) (assignmentId : Nat)
    (h : ∀ a ∈ db.assignments, a.id = assignmentId →
      ∀ c ∈ db.classes, c.id = a.classId → c.teacherId ≠ teacher.id) :
    (delete_assignment db teacher assignmentId).1 ≠ EditResult.mutated ∧
      (delete_assignment db teacher assignmentId).2 = db := by
  unfold delete_assignment
  by_cases hrole : teacher.role ≠ Role.TEACHER
  · rw [if_pos hrole]
    exact ⟨by simp, rfl⟩
  · rw [if_neg hrole]
    cases hfa : db.assignments.find? (fun a => a.id == assignmentId) with
    | none => simp [hfa]
    | some assignment =>
      have ha1 : assignment ∈ db.assignments := List.mem_of_find?_eq_some hfa
      have ha2 : assignment.id = assignmentId := by
        have := List.find?_some hfa
        simpa using this
      cases hfc : db.classes.find? (fun c => c.id == assignment.classId) with
      | none => simp [hfa, hfc]
      | some cls =>
        have hc1 : cls ∈ db.classes := List.mem_of_find?_eq_some hfc
        have hc2 : cls.id = assignment.classId := by
          have := List.find?_some hfc
          simpa using this
        have hne : cls.teacherId ≠ teacher.id := h assignment ha1 ha2 cls hc1 hc2
        simp [hfa, hfc, hne]

/-- C7: a teacher acting on a class, lesson, or assignment they do not
own is denied by the edit and delete views (404 or redirect, never a
mutation) and the database is left unchanged. -/
theorem non_owner_mutations_denied (db : DB) (teacher : User)
    (classId lessonId assignmentId : Nat)
    (cform : ClassForm) (lform : LessonForm) (aform : AssignmentForm) :
    ((∀ c ∈ db.classes, c.id = classId → c.teacherId ≠ teacher.id) →
      (edit_class db teacher classId cform).1 ≠ EditResult.mutated ∧
      (edit_class db teacher classId cform).2 = db ∧
      (delete_class db teacher classId).1 ≠ EditResult.mutated ∧
      (delete_class db teacher classId).2 = db) ∧
    ((∀ l ∈ db.lessons, l.id = lessonId →
        ∀ c ∈ db.classes, c.id = l.classId → c.teacherId ≠ teacher.id) →
      (edit_lesson db teacher lessonId lform).1 ≠ EditResult.mutated ∧
      (edit_lesson db teacher lessonId lform).2 = db ∧
      (delete_lesson db teacher lessonId).1 ≠ EditResult.mutated ∧
      (delete_lesson db teacher lessonId).2 = db) ∧
    ((∀ a ∈ db.assignments, a.id = assignmentId →
        ∀ c ∈ db.classes, c.id = a.classId → c.teacherId ≠ teacher.id) →
      (edit_assignment db teacher assignmentId aform).1 ≠ EditResult.mutated ∧
      (edit_assignment db teacher assignmentId aform).2 = db ∧
      (delete_assignment db teacher assignmentId).1 ≠ EditResult.mutated ∧
      (delete_assignment db teacher assignmentId).2 = db) := by
  refine ⟨fun h => ?_, fun h => ?_, fun h => ?_⟩
  · obtain ⟨e1, e2⟩ := edit_class_denied db teacher classId cform h
    obtain ⟨d1, d2⟩ := delete_class_denied db teacher classId h
    exact ⟨e1, e2, d1, d2⟩
  · obtain ⟨e1, e2⟩ := edit_lesson_denied db teacher lessonId lform h
    obtain ⟨d1, d2⟩ := delete_lesson_denied db teacher lessonId h
    exact ⟨e1, e2, d1, d2⟩
  · obtain ⟨e1, e2⟩ := edit_assignment_denied db teacher assignmentId aform h
    obtain ⟨d1, d2⟩ := delete_assignment_denied db teacher assignmentId h
    exact ⟨e1, e2, d1, d2⟩

/-- Witness for C7: a concrete non-owning teacher is denied on all six
views and the example database is untouched. -/
theorem non_owner_mutations_denied_witness :
    ((edit_class exDB7 otherTeacher 1 exClassForm).1 ≠ EditResult.mutated ∧
      (edit_class exDB7 otherTeacher 1 exClassForm).2 = exDB7 ∧
      (delete_class exDB7 otherTeacher 1).1 ≠ EditResult.mutated ∧
      (delete_class exDB7 otherTeacher 1).2 = exDB7) ∧
    ((edit_lesson exDB7 otherTeacher 1 exLessonForm).1 ≠ EditResult.mutated ∧
      (edit_lesson exDB7 otherTeacher 1 exLessonForm).2 = exDB7 ∧
      (delete_lesson exDB7 otherTeacher 1).1 ≠ EditResult.mutated ∧
      (delete_lesson exDB7 otherTeacher 1).2 = exDB7) ∧
    ((edit_assignment exDB7 otherTeacher 1 exAssignmentForm).1 ≠ EditResult.mutated ∧
      (edit_assignment exDB7 otherTeacher 1 exAssignmentForm).2 = exDB7 ∧
      (delete_assignment exDB7 otherTeacher 1).1 ≠ EditResult.mutated ∧
      (delete_assignment exDB7 otherTeacher 1).2 = exDB7) := by
  have h := non_owner_mutations_denied exDB7 otherTeacher 1 1 1
    exClassForm exLessonForm exAssignmentForm
  exact ⟨h.1 (by decide), h.2.1 (by decide), h.2.2 (by decide)⟩

/-- C10: deleting a class removes no rows anywhere: every other table
is untouched, the class list keeps its length, every class keeps every
field except that the target class's active flag becomes false, and
classes other than the target are entirely unchanged. -/
theorem delete_class_archives_only (db : DB) (teacher : User) (classId : Nat)
    (hrole : teacher.role = Role.TEACHER)
    (hfind : (db.classes.find? fun c =>
      c.id == classId && c.teacherId == teacher.id).isSome = true) :
    (delete_class db teacher classId).1 = EditResult.mutated ∧
    (delete_class db teacher classId).2.enrollments = db.enrollments ∧
    (delete_class db teacher classId).2.lessons = db.lessons ∧
    (delete_class db teacher classId).2.assignments = db.assignments ∧
    (delete_class db teacher classId).2.announcements = db.announcements ∧
    (delete_class db teacher classId).2.submissions = db.submissions ∧
    (delete_class db teacher classId).2.classes.length = db.classes.length ∧
    ∀ (i : Nat) (h1 : i < db.classes.length)
      (h2 : i < (delete_class db teacher classId).2.classes.length),
      ((delete_class db teacher classId).2.classes.get ⟨i, h2⟩).id
          = (db.classes.get ⟨i, h1⟩).id ∧
      ((delete_class db teacher classId).2.classes.get ⟨i, h2⟩).name
          = (db.classes.get ⟨i, h1⟩).name ∧
      ((delete_class db teacher classId).2.classes.get ⟨i, h2⟩).description
          = (db.classes.get ⟨i, h1⟩).description ∧
      ((delete_class db teacher classId).2.classes.get ⟨i, h2⟩).teacherId
          = (db.classes.get ⟨i, h1⟩).teacherId ∧
      ((delete_class db teacher classId).2.classes.get ⟨i, h2⟩).classCode
          = (db.classes.get ⟨i, h1⟩).classCode ∧
      ((delete_class db teacher classId).2.classes.get ⟨i, h2⟩).subject
          = (db.classes.get ⟨i, h1⟩).subject ∧
      ((delete_class db teacher classId).2.classes.get ⟨i, h2⟩).room
          = (db.classes.get ⟨i, h1⟩).room ∧
      ((db.classes.get ⟨i, h1⟩).id = classId →
        ((delete_class db teacher classId).2.classes.get ⟨i, h2⟩).isActive = false) ∧
      ((db.classes.get ⟨i, h1⟩).id ≠ classId →
        (delete_class db teacher classId).2.classes.get ⟨i, h2⟩
          = db.classes.get ⟨i, h1⟩) := by
  obtain ⟨cls, hfc⟩ := Option.isSome_iff_exists.mp hfind
  have hd : delete_class db teacher classId =
      (EditResult.mutated, { db with classes := db.classes.map (fun c =>
        if c.id == classId then { c with isActive := false } else c) }) := by
    unfold delete_class
    rw [if_neg (by simp [hrole]), hfc]
  rw [hd]
  refine ⟨rfl, rfl, rfl, rfl, rfl, rfl, by simp, ?_⟩
  intro i h1 h2
  by_cases hid : (db.classes[i]).id = classId
  · refine ⟨?_, ?_, ?_, ?_, ?_, ?_, ?_, fun _ => ?_, fun hne => absurd hid hne⟩ <;>
      simp [List.get_eq_getElem, List.getElem_map, hid]
  · refine ⟨?_, ?_, ?_, ?_, ?_, ?_, ?_, fun heq => absurd heq hid, fun _ => ?_⟩ <;>
      simp [List.get_eq_getElem, List.getElem_map, hid]

/-- Witness for C10: archiving the example class flips only its active
flag; the other tables of the example database are untouched. -/
theorem delete_class_archives_only_witness :
    (delete_class exDB exTeacher 1).1 = EditResult.mutated ∧
    (delete_class exDB exTeacher 1).2.enrollments = exDB.enrollments ∧
    (delete_class exDB exTeacher 1).2.submissions = exDB.submissions := by
  have h := delete_class_archives_only exDB exTeacher 1 rfl (by decide)
  exact ⟨h.1, h.2.1, h.2.2.2.2.2.1⟩

end SmartClass
